import Mathlib

/-!
Shallow embedding of the `parsec-digital/nftfi.js` SDK layer:
the `Offers` class (`src/nftfi/offers.js`) and the `MultisigGnosisOwner`
class (`cjs/nftfi/drops/og/index.cjs`).

JavaScript values are modelled by the inductive `JsVal`; objects are
association lists of fields (first binding of a key wins on lookup).
Property access `base.key` is modelled by `JsVal.get`, which raises a
`TypeError` on an `undefined`/`null` base, as JavaScript does; optional
chaining `base?.key` is modelled by `JsVal.optGet`, which never throws.
Machine effects that the claims observe (which API requests were issued,
which helper calls were made) are returned alongside the result.

`Offers.create` assigns to the identifier `response`, which is never
declared in the method (only `errors` is declared by `let errors;`).
The source file is an ES module and the assignment sits in a class body,
so strict-mode semantics apply: the assignment raises
`ReferenceError: response is not defined` after its right-hand side has
been evaluated.  The embedding mirrors this: every branch of the switch
ends in `Except.error (JsError.referenceError "response")`.
-/

/-- Errors raised by the embedded JavaScript semantics. -/
inductive JsError where
  | referenceError (name : String)
  | typeError (name : String)
deriving DecidableEq

/-- A JavaScript value.  Objects are association lists of named fields;
arrays are element lists. -/
inductive JsVal where
  | undefined
  | null
  | bool (b : Bool)
  | num (n : Int)
  | str (s : String)
  | obj (fields : List (String × JsVal))
  | arr (elems : List JsVal)

/-- First binding of `key` in an object's field list (later duplicates are
shadowed, as in a JavaScript object whose fields were inserted left to
right with overwrites already resolved by `spreadFields`). -/
def lookupField : List (String × JsVal) → String → Option JsVal
  | [], _ => none
  | (k, v) :: rest, key => if k = key then some v else lookupField rest key

/-- Property access `base.key`: `TypeError` on `undefined`/`null`,
the field's value (or `undefined`) on an object, `undefined` on any
other primitive. -/
def JsVal.get : JsVal → String → Except JsError JsVal
  | .undefined, k => .error (.typeError k)
  | .null, k => .error (.typeError k)
  | .obj fs, k => .ok ((lookupField fs k).getD .undefined)
  | _, _ => .ok .undefined

/-- Optional chaining `base?.key`: like `JsVal.get` but yielding
`undefined` instead of throwing on an `undefined`/`null` base. -/
def JsVal.optGet : JsVal → String → JsVal
  | .obj fs, k => (lookupField fs k).getD .undefined
  | _, _ => .undefined

/-- JavaScript truthiness. -/
def JsVal.truthy : JsVal → Bool
  | .undefined => false
  | .null => false
  | .bool b => b
  | .num n => decide (n ≠ 0)
  | .str s => decide (s ≠ "")
  | .obj _ => true
  | .arr _ => true

/-- Strict equality `v === "lit"` against a string literal. -/
def jsStrictEqStr (v : JsVal) (lit : String) : Bool :=
  match v with
  | .str t => t = lit
  | _ => false

/-- Strict equality `v === false`. -/
def jsIsFalse : JsVal → Bool
  | .bool false => true
  | _ => false

/-- Fields contributed by `...v` inside an object literal: an object
spreads its fields; `undefined`/`null` and other primitives spread
nothing.  (Spreading a string or an array would contribute index
properties; no code path in this repository does that.) -/
def spreadSource : JsVal → List (String × JsVal)
  | .obj fs => fs
  | _ => []

/-- The object literal `{ ...a, ...b }` for field lists `a` and `b`:
a key present in `b` takes the value from `b`; keys only in `a` keep
their value from `a`. -/
def spreadFields (a b : List (String × JsVal)) : List (String × JsVal) :=
  a.filter (fun p => (lookupField b p.1).isNone) ++ b

mutual
/-- String conversion used by template literals, `String(v)`. -/
def JsVal.toDisplayString : JsVal → String
  | .undefined => "undefined"
  | .null => "null"
  | .bool b => if b then "true" else "false"
  | .num n => toString n
  | .str s => s
  | .obj _ => "[object Object]"
  | .arr es => joinDisplay es

/-- Array-to-string conversion: elements joined with commas. -/
def joinDisplay : List JsVal → String
  | [] => ""
  | [v] => v.toDisplayString
  | v :: rest => v.toDisplayString ++ "," ++ joinDisplay rest
end

/-- One request issued through the API client's `get`. -/
structure ApiGetCall where
  uri : String
  params : JsVal

/-- The injected API client (`options.api`): collaborator functions
returning whatever the remote API answers. -/
structure OffersApi where
  get : ApiGetCall → JsVal
  post : String → JsVal → JsVal
  delete : String → JsVal

/-- The injected account descriptor (`options.account`). -/
structure Account where
  getAddress : String

/-- The injected offers helper (`options.offersHelper`). -/
structure OffersHelper where
  constructV2Offer : JsVal → JsVal

/-- The injected loans collaborator (`options.loans`). -/
structure Loans where
  revokeOffer : JsVal → JsVal

/-- The `Offers` class: constructor-injected collaborators. -/
structure Offers where
  account : Account
  api : OffersApi
  helper : OffersHelper
  loans : Loans

/-- The `params` computation of `Offers.get` (`offers.js` lines 53-69):
`params = {}`; if `options?.filters?.nft` is truthy, fill in
`nftAddress`/`nftId` according to which filters are truthy; otherwise
`params = { lenderAddress: account.getAddress() }`. -/
def offersGetParams (accountAddress : String) (options : JsVal) :
    Except JsError JsVal :=
  if ((options.optGet "filters").optGet "nft").truthy then do
    let filters ← options.get "filters"
    let nft ← filters.get "nft"
    let address ← nft.get "address"
    if address.truthy && (((options.optGet "filters").optGet "nft").optGet "id").truthy then do
      let id ← nft.get "id"
      pure (JsVal.obj [("nftAddress", address), ("nftId", id)])
    else if address.truthy then
      pure (JsVal.obj [("nftAddress", address)])
    else
      pure (JsVal.obj [])
  else
    pure (JsVal.obj [("lenderAddress", JsVal.str accountAddress)])

/-- `Offers.get` (`offers.js` lines 52-76).  The first component records
the request issued through `api.get` (`none` when the params computation
threw first); the second is the returned `response['results']` or the
error raised. -/
def Offers.get (o : Offers) (options : JsVal) :
    Option ApiGetCall × Except JsError JsVal :=
  match offersGetParams o.account.getAddress options with
  | .error e => (none, .error e)
  | .ok params =>
    let call : ApiGetCall := { uri := "offers", params := params }
    let response := o.api.get call
    (some call, response.get "results")

/-- Line 112 of `offers.js`:
`options = { ...options.listing, ...options }` (root fields win). -/
def createMergedOptions (options : JsVal) : Except JsError JsVal := do
  let listing ← options.get "listing"
  pure (JsVal.obj (spreadFields (spreadSource listing) (spreadSource options)))

/-- Line 115 of `offers.js` applied to the merged options:
`options.nftfi.contract.name`. -/
def contractNameOf (merged : JsVal) : Except JsError JsVal := do
  let nftfi ← merged.get "nftfi"
  let contract ← nftfi.get "contract"
  contract.get "name"

/-- The contract name `Offers.create` switches on, starting from the raw
`options` argument: merge first, then read `nftfi.contract.name`.
`Except.ok` exactly when the call reaches the switch. -/
def createContractName (options : JsVal) : Except JsError JsVal := do
  contractNameOf (← createMergedOptions options)

/-- Line 114 of `offers.js`:
`options?.simulation?.dryRun || false` on the merged options. -/
def createDryRun (merged : JsVal) : JsVal :=
  let v := (merged.optGet "simulation").optGet "dryRun"
  if v.truthy then v else JsVal.bool false

/-- Observable collaborator calls made during `Offers.create`:
the arguments passed to `helper.constructV2Offer`, and the
`(uri, payload)` pairs passed to `api.post`. -/
structure CreateEffects where
  helperCalls : List JsVal
  postCalls : List (String × JsVal)

/-- `Offers.create` (`offers.js` lines 111-136).  All three switch
branches assign to the undeclared identifier `response`, so under the
module's strict-mode semantics each branch evaluates its right-hand side
(invoking the helper and possibly `api.post` in the supported branch,
building the `errors` object in the default branch) and then raises
`ReferenceError: response is not defined`. -/
def Offers.create (o : Offers) (options : JsVal) :
    CreateEffects × Except JsError JsVal :=
  match createMergedOptions options with
  | .error e => (⟨[], []⟩, .error e)
  | .ok merged =>
    let simulationDryRun := createDryRun merged
    match contractNameOf merged with
    | .error e => (⟨[], []⟩, .error e)
    | .ok contractName =>
      if jsStrictEqStr contractName "v2-1.loan.fixed" then
        let payload := o.helper.constructV2Offer merged
        if jsIsFalse simulationDryRun then
          let _response := o.api.post "offers" payload
          (⟨[merged], [("offers", payload)]⟩,
           .error (.referenceError "response"))
        else
          (⟨[merged], []⟩, .error (.referenceError "response"))
      else
        let _errors := JsVal.obj [("nftfi.contract.name",
          JsVal.arr [JsVal.str (contractName.toDisplayString ++ " not supported")])]
        (⟨[], []⟩, .error (.referenceError "response"))

/-- `Offers.delete` (`offers.js` lines 156-160). -/
def Offers.deleteOffer (o : Offers) (options : JsVal) :
    Except JsError JsVal := do
  let offer ← options.get "offer"
  let id ← offer.get "id"
  pure (o.api.delete ("offers/" ++ id.toDisplayString))

/-- `Offers.revoke` (`offers.js` lines 181-184). -/
def Offers.revoke (o : Offers) (options : JsVal) : JsVal :=
  o.loans.revokeOffer options

/-- The `safe` descriptor inside the multisig configuration. -/
structure SafeDescriptor where
  address : String

/-- The multisig descriptor (`options.multisig`). -/
structure Multisig where
  safe : SafeDescriptor

/-- The chain configuration (`options.config`). -/
structure ChainConfig where
  chainId : Nat

/-- An explicit signer object (`options.signer`): `address` is the value
its asynchronous `getAddress()` resolves to, `signMessage` maps a byte
array to the hex signature string it produces. -/
structure Signer where
  address : String
  signMessage : List Nat → List Char

/-- The ethers library surface `MultisigGnosisOwner` delegates to.
These are external collaborators, modelled as abstract functions:
`computeAddress` is `ethers.utils.computeAddress` applied to the stored
(possibly undefined) private key; `hashMessage` is
`ethers.utils.hashMessage`; `typedDataHash` is
`ethers.utils._TypedDataEncoder.hash` applied to the domain
`{ verifyingContract, chainId }`, the fixed one-field `SafeMessage` type
`[{ type: 'bytes', name: 'message' }]` and the value `{ message }`;
`arrayify` is `ethers.utils.arrayify`; `walletSignMessage` is
`new ethers.Wallet(privateKey).signMessage` on a byte array.
Signatures are modelled as lists of hex characters. -/
structure EthersLib where
  computeAddress : Option String → String
  hashMessage : List Nat → List Char
  typedDataHash : String → Nat → List Char → List Char
  arrayify : List Char → List Nat
  walletSignMessage : Option String → List Nat → List Char

/-- The `MultisigGnosisOwner` class (`index.cjs` lines 22-88): the
constructor-stored references used by `getAddress` and `sign`.
(`getSafeSDK` and its collaborators `provider`, `EthersAdapter`, `Safe`
are not exercised by any claim and are not embedded.) -/
structure MultisigGnosisOwner where
  ethers : EthersLib
  privateKey : Option String
  signer : Option Signer
  config : ChainConfig
  multisig : Multisig

/-- `getPrivateKey` (`index.cjs` lines 43-45). -/
def MultisigGnosisOwner.getPrivateKey (o : MultisigGnosisOwner) : Option String :=
  o.privateKey

/-- `getSigner` (`index.cjs` lines 47-49). -/
def MultisigGnosisOwner.getSigner (o : MultisigGnosisOwner) : Option Signer :=
  o.signer

/-- `getAddress` (`index.cjs` lines 51-54):
`signerAddress = await this.#signer?.getAddress()` —
`undefined` when no signer is set — then
`signerAddress || ethers.utils.computeAddress(privateKey)`:
the signer's address when it is truthy (a nonempty string), otherwise
the address computed from the stored private key. -/
def MultisigGnosisOwner.getAddress (o : MultisigGnosisOwner) : String :=
  match o.signer.map Signer.address with
  | some a => if a ≠ "" then a else o.ethers.computeAddress o.privateKey
  | none => o.ethers.computeAddress o.privateKey

/-- The raw signature produced inside `sign` (`index.cjs` lines 72-83)
before the suffix rewrite: hash the message, build the typed-data hash
over the Safe domain, then `wallet.signMessage(arrayify(hash))` where
`wallet` is the explicit signer if present, else
`new Wallet(privateKey)`. -/
def rawWalletSignature (o : MultisigGnosisOwner) (msg : List Nat) : List Char :=
  let message := o.ethers.hashMessage msg
  let hash := o.ethers.typedDataHash o.multisig.safe.address o.config.chainId message
  match o.getSigner with
  | some s => s.signMessage (o.ethers.arrayify hash)
  | none => o.ethers.walletSignMessage o.getPrivateKey (o.ethers.arrayify hash)

/-- `s.replace(/pat$/, rep)` for a fixed plain pattern: if `s` ends with
`pat`, that ending is replaced by `rep`; otherwise `s` is unchanged. -/
def replaceSuffix (pat rep s : List Char) : List Char :=
  if pat.isSuffixOf s then s.take (s.length - pat.length) ++ rep else s

/-- Lines 84-85 of `index.cjs`:
`.replace(/1b$/, '1f').replace(/1c$/, '20')`. -/
def adjustSignature (s : List Char) : List Char :=
  replaceSuffix ['1', 'c'] ['2', '0'] (replaceSuffix ['1', 'b'] ['1', 'f'] s)

/-- `sign` (`index.cjs` lines 70-87): the wallet-produced signature with
its trailing recovery-byte hex suffix rewritten. -/
def MultisigGnosisOwner.sign (o : MultisigGnosisOwner) (msg : List Nat) : List Char :=
  adjustSignature (rawWalletSignature o msg)

/-! ### Helper lemmas -/

/-- A two-character pattern is a suffix of `t ++ [a, b]` exactly when it
is `[a, b]` itself. -/
theorem pair_isSuffixOf_append (x y a b : Char) (t : List Char) :
    [x, y].isSuffixOf (t ++ [a, b]) = ((y == b) && (x == a)) := by
  simp [List.isSuffixOf, List.reverse_append, List.isPrefixOf]

/-- `replaceSuffix` on a string that ends with the pattern replaces
exactly the pattern, keeping the rest of the string. -/
theorem replaceSuffix_append_match (x y r₁ r₂ : Char) (t : List Char) :
    replaceSuffix [x, y] [r₁, r₂] (t ++ [x, y]) = t ++ [r₁, r₂] := by
  have hsuf : [x, y].isSuffixOf (t ++ [x, y]) = true := by
    rw [pair_isSuffixOf_append]; simp
  have hlen : (t ++ [x, y]).length - [x, y].length = t.length := by simp
  simp only [replaceSuffix, hsuf, if_true, hlen]
  rw [List.take_left]

/-- `replaceSuffix` on a string whose last two characters differ from
the pattern is the identity. -/
theorem replaceSuffix_append_noMatch (x y r₁ r₂ a b : Char) (t : List Char)
    (h : (x, y) ≠ (a, b)) :
    replaceSuffix [x, y] [r₁, r₂] (t ++ [a, b]) = t ++ [a, b] := by
  have hsuf : [x, y].isSuffixOf (t ++ [a, b]) = false := by
    rw [pair_isSuffixOf_append]
    by_cases hx : x = a <;> by_cases hy : y = b <;> simp_all
  simp [replaceSuffix, hsuf]

/-- On a truthy base, plain property access cannot throw and agrees with
optional chaining. -/
theorem get_eq_optGet_of_truthy (v : JsVal) (k : String) (h : v.truthy = true) :
    v.get k = .ok (v.optGet k) := by
  cases v <;> simp_all [JsVal.truthy, JsVal.get, JsVal.optGet]

/-- A key bound in `b` keeps its `b` value in `{ ...a, ...b }`. -/
theorem lookupField_spread_right (a b : List (String × JsVal)) (k : String) (v : JsVal)
    (h : lookupField b k = some v) : lookupField (spreadFields a b) k = some v := by
  induction a with
  | nil => simpa [spreadFields]
  | cons p rest ih =>
    obtain ⟨k', v'⟩ := p
    by_cases hk : k' = k
    · subst hk
      simp only [spreadFields, List.filter_cons] at ih ⊢
      simp [h] at ih ⊢
      exact ih
    · simp only [spreadFields, List.filter_cons] at ih ⊢
      by_cases hn : (lookupField b k').isNone
      · simp only [hn, if_true]
        simpa [lookupField, hk] using ih
      · simp only [hn]
        simpa using ih

/-- A key not bound in `b` keeps its `a` value in `{ ...a, ...b }`. -/
theorem lookupField_spread_left (a b : List (String × JsVal)) (k : String)
    (h : lookupField b k = none) :
    lookupField (spreadFields a b) k = lookupField a k := by
  induction a with
  | nil => simpa [spreadFields, lookupField]
  | cons p rest ih =>
    obtain ⟨k', v'⟩ := p
    by_cases hk : k' = k
    · subst hk
      simp only [spreadFields, List.filter_cons]
      simp [h, lookupField]
    · simp only [spreadFields, List.filter_cons] at ih ⊢
      by_cases hn : (lookupField b k').isNone
      · simp only [hn, if_true]
        simp only [lookupField, hk, if_false]
        simpa using ih
      · simp only [hn]
        simp only [lookupField, hk, if_false]
        simpa using ih

/-- Reduction of `Except` bind on a success value. -/
theorem exceptBindOk {α β ε : Type} (a : α) (f : α → Except ε β) :
    (Except.ok a >>= f : Except ε β) = f a := rfl

/-- Reduction of `Except` bind on an error value. -/
theorem exceptBindError {α β ε : Type} (e : ε) (f : α → Except ε β) :
    (Except.error e >>= f : Except ε β) = Except.error e := rfl

/-- Reduction of `pure` into the `Except` success constructor. -/
theorem exceptPure {α ε : Type} (a : α) : (pure a : Except ε α) = Except.ok a := rfl

/-! ### Concrete collaborator instances, used to evaluate the embedded
methods at specific inputs -/

/-- A concrete `Offers` instance with constant collaborators. -/
def sampleOffers : Offers where
  account := ⟨"0xlender"⟩
  api :=
    { get := fun _ => JsVal.obj [("results", JsVal.arr [])]
      post := fun _ _ => JsVal.str "apiResponse"
      delete := fun _ => JsVal.str "deleted" }
  helper := ⟨fun _ => JsVal.str "constructedPayload"⟩
  loans := ⟨fun _ => JsVal.str "revoked"⟩

/-- A concrete ethers library whose address computation is a constant. -/
def sampleEthers : EthersLib where
  computeAddress := fun _ => "0xDERIVED"
  hashMessage := fun _ => []
  typedDataHash := fun _ _ _ => []
  arrayify := fun _ => []
  walletSignMessage := fun _ _ => []

/-- A signer whose asynchronous `getAddress()` resolves to the empty
string (a falsy value). -/
def emptyAddressSigner : Signer where
  address := ""
  signMessage := fun _ => []

/-- A `MultisigGnosisOwner` built with both a signer and a private key,
where the signer's address resolves falsy. -/
def falsySignerOwner : MultisigGnosisOwner where
  ethers := sampleEthers
  privateKey := some "0xkey"
  signer := some emptyAddressSigner
  config := ⟨1⟩
  multisig := ⟨⟨"0xsafe"⟩⟩

/-! ### Claims about `MultisigGnosisOwner` -/

/-- C6: the signature returned by `MultisigGnosisOwner.sign` is exactly
the wallet-produced hex signature with its trailing byte rewritten:
a trailing `1b` becomes `1f`, a trailing `1c` becomes `20`, and any
other trailing byte is passed through unchanged; in each case the rest
of the signature (every byte but the trailing one) is untouched. -/
theorem sign_trailing_byte_rewrite (o : MultisigGnosisOwner) (msg : List Nat)
    (t : List Char) (c₁ c₂ : Char)
    (h1 : (c₁, c₂) ≠ ('1', 'b')) (h2 : (c₁, c₂) ≠ ('1', 'c')) :
    adjustSignature (t ++ ['1', 'b']) = t ++ ['1', 'f'] ∧
    adjustSignature (t ++ ['1', 'c']) = t ++ ['2', '0'] ∧
    adjustSignature (t ++ [c₁, c₂]) = t ++ [c₁, c₂] ∧
    MultisigGnosisOwner.sign o msg = adjustSignature (rawWalletSignature o msg) := by
  refine ⟨?_, ?_, ?_, rfl⟩
  · unfold adjustSignature
    rw [replaceSuffix_append_match]
    exact replaceSuffix_append_noMatch '1' 'c' '2' '0' '1' 'f' t (by decide)
  · unfold adjustSignature
    rw [replaceSuffix_append_noMatch '1' 'b' '1' 'f' '1' 'c' t (by decide)]
    exact replaceSuffix_append_match '1' 'c' '2' '0' t
  · unfold adjustSignature
    rw [replaceSuffix_append_noMatch '1' 'b' '1' 'f' c₁ c₂ t (Ne.symm h1)]
    exact replaceSuffix_append_noMatch '1' 'c' '2' '0' c₁ c₂ t (Ne.symm h2)

/-- Witness for C6 at a concrete signature tail and trailing byte. -/
theorem sign_trailing_byte_rewrite_witness :
    (('a', '9') ≠ ('1', 'b')) ∧ (('a', '9') ≠ ('1', 'c')) ∧
    (adjustSignature (['0', 'x'] ++ ['1', 'b']) = ['0', 'x'] ++ ['1', 'f'] ∧
     adjustSignature (['0', 'x'] ++ ['1', 'c']) = ['0', 'x'] ++ ['2', '0'] ∧
     adjustSignature (['0', 'x'] ++ ['a', '9']) = ['0', 'x'] ++ ['a', '9'] ∧
     MultisigGnosisOwner.sign falsySignerOwner [] =
       adjustSignature (rawWalletSignature falsySignerOwner [])) :=
  ⟨by decide, by decide,
   sign_trailing_byte_rewrite falsySignerOwner [] ['0', 'x'] 'a' '9'
     (by decide) (by decide)⟩

/-- C8 counterexample: an instance constructed with a signer (and also a
private key) whose `getAddress` does not return the signer's address:
the signer's address resolves to the falsy `""`, and `getAddress`
returns the private-key-derived address instead. -/
theorem getAddress_signer_claim_cex :
    falsySignerOwner.signer = some emptyAddressSigner ∧
    emptyAddressSigner.address = "" ∧
    falsySignerOwner.getAddress = "0xDERIVED" ∧
    falsySignerOwner.getAddress ≠ emptyAddressSigner.address :=
  ⟨rfl, rfl, rfl, by decide⟩

/-- C8 (amended): if a signer was supplied and its address resolves to a
truthy (nonempty) string, `getAddress` returns that address even when a
private key was also supplied; if no signer was supplied, or the
signer's address resolves falsy, `getAddress` returns the address
computed from the stored private key. -/
theorem getAddress_signer_precedence_amended (e : EthersLib) (pk : Option String)
    (s s₀ : Signer) (cfg : ChainConfig) (m : Multisig)
    (h : s.address ≠ "") (h₀ : s₀.address = "") :
    MultisigGnosisOwner.getAddress ⟨e, pk, some s, cfg, m⟩ = s.address ∧
    MultisigGnosisOwner.getAddress ⟨e, pk, none, cfg, m⟩ = e.computeAddress pk ∧
    MultisigGnosisOwner.getAddress ⟨e, pk, some s₀, cfg, m⟩ = e.computeAddress pk := by
  refine ⟨?_, rfl, ?_⟩ <;> simp [MultisigGnosisOwner.getAddress, h, h₀]

/-- Witness for the amended C8 at concrete signers and key. -/
theorem getAddress_signer_precedence_amended_witness :
    ("0xSIGNER" : String) ≠ "" ∧
    MultisigGnosisOwner.getAddress
        ⟨sampleEthers, some "0xkey", some ⟨"0xSIGNER", fun _ => []⟩, ⟨1⟩, ⟨⟨"0xsafe"⟩⟩⟩ =
      "0xSIGNER" ∧
    MultisigGnosisOwner.getAddress
        ⟨sampleEthers, some "0xkey", none, ⟨1⟩, ⟨⟨"0xsafe"⟩⟩⟩ =
      sampleEthers.computeAddress (some "0xkey") ∧
    MultisigGnosisOwner.getAddress
        ⟨sampleEthers, some "0xkey", some emptyAddressSigner, ⟨1⟩, ⟨⟨"0xsafe"⟩⟩⟩ =
      sampleEthers.computeAddress (some "0xkey") :=
  ⟨by decide,
   getAddress_signer_precedence_amended sampleEthers (some "0xkey")
     ⟨"0xSIGNER", fun _ => []⟩ emptyAddressSigner ⟨1⟩ ⟨⟨"0xsafe"⟩⟩
     (by decide) rfl⟩

/-- C10: on an instance constructed with both a signer and a private
key, if the signer's address resolves to a falsy value (the empty
string), `getAddress` falls back to the address computed from the
stored private key. -/
theorem getAddress_falsy_signer_fallback (e : EthersLib) (pk : String) (s : Signer)
    (cfg : ChainConfig) (m : Multisig) (h : s.address = "") :
    MultisigGnosisOwner.getAddress ⟨e, some pk, some s, cfg, m⟩ =
      e.computeAddress (some pk) := by
  simp [MultisigGnosisOwner.getAddress, h]

/-- Witness for C10 at a concrete falsy signer. -/
theorem getAddress_falsy_signer_fallback_witness :
    emptyAddressSigner.address = "" ∧
    MultisigGnosisOwner.getAddress
        ⟨sampleEthers, some "0xkey", some emptyAddressSigner, ⟨1⟩, ⟨⟨"0xsafe"⟩⟩⟩ =
      sampleEthers.computeAddress (some "0xkey") :=
  ⟨rfl, getAddress_falsy_signer_fallback sampleEthers "0xkey" emptyAddressSigner
    ⟨1⟩ ⟨⟨"0xsafe"⟩⟩ rfl⟩

/-! ### Claims about `Offers.get` -/

/-- C5: when both `filters.nft.address` and `filters.nft.id` are present
(truthy strings), the API is queried with `{nftAddress, nftId}`; when
only `filters.nft.address` is present, with `{nftAddress}`; and in the
absence of any NFT filter (no `filters` at all, or `filters` without an
`nft` entry), with `{lenderAddress: <the account's address>}`. -/
theorem get_filter_params_cases (o : Offers) (addr idv : String)
    (h1 : addr ≠ "") (h2 : idv ≠ "") :
    (Offers.get o (JsVal.obj [("filters", JsVal.obj [("nft",
        JsVal.obj [("address", JsVal.str addr), ("id", JsVal.str idv)])])])).1 =
      some ⟨"offers", JsVal.obj [("nftAddress", JsVal.str addr), ("nftId", JsVal.str idv)]⟩ ∧
    (Offers.get o (JsVal.obj [("filters", JsVal.obj [("nft",
        JsVal.obj [("address", JsVal.str addr)])])])).1 =
      some ⟨"offers", JsVal.obj [("nftAddress", JsVal.str addr)]⟩ ∧
    (Offers.get o (JsVal.obj [])).1 =
      some ⟨"offers", JsVal.obj [("lenderAddress", JsVal.str o.account.getAddress)]⟩ ∧
    (Offers.get o (JsVal.obj [("filters", JsVal.obj [])])).1 =
      some ⟨"offers", JsVal.obj [("lenderAddress", JsVal.str o.account.getAddress)]⟩ := by
  refine ⟨?_, ?_, rfl, rfl⟩ <;>
    simp [Offers.get, offersGetParams, JsVal.optGet, JsVal.get, lookupField,
      JsVal.truthy, h1, h2, exceptBindOk, exceptPure]

/-- Witness for C5 at concrete filter values. -/
theorem get_filter_params_cases_witness :
    ("0xc" : String) ≠ "" ∧ ("7" : String) ≠ "" ∧
    ((Offers.get sampleOffers (JsVal.obj [("filters", JsVal.obj [("nft",
        JsVal.obj [("address", JsVal.str "0xc"), ("id", JsVal.str "7")])])])).1 =
      some ⟨"offers", JsVal.obj [("nftAddress", JsVal.str "0xc"), ("nftId", JsVal.str "7")]⟩ ∧
    (Offers.get sampleOffers (JsVal.obj [("filters", JsVal.obj [("nft",
        JsVal.obj [("address", JsVal.str "0xc")])])])).1 =
      some ⟨"offers", JsVal.obj [("nftAddress", JsVal.str "0xc")]⟩ ∧
    (Offers.get sampleOffers (JsVal.obj [])).1 =
      some ⟨"offers", JsVal.obj [("lenderAddress", JsVal.str "0xlender")]⟩ ∧
    (Offers.get sampleOffers (JsVal.obj [("filters", JsVal.obj [])])).1 =
      some ⟨"offers", JsVal.obj [("lenderAddress", JsVal.str "0xlender")]⟩) :=
  ⟨by decide, by decide, get_filter_params_cases sampleOffers "0xc" "7"
    (by decide) (by decide)⟩

/-- C9: when `options.filters.nft` is present (truthy) but its `address`
is absent or falsy — an empty `nft` object, or an `nft` filter carrying
only an `id` — the API is queried with an empty params object: neither
`nftAddress`, nor `nftId`, nor the `lenderAddress` fallback appears. -/
theorem get_nft_filter_falsy_address_empty_params (o : Offers) (nft : JsVal)
    (hnft : nft.truthy = true)
    (haddr : (nft.optGet "address").truthy = false) :
    (Offers.get o (JsVal.obj [("filters", JsVal.obj [("nft", nft)])])).1 =
      some ⟨"offers", JsVal.obj []⟩ := by
  have hg : ((JsVal.obj [("filters", JsVal.obj [("nft", nft)])]).optGet "filters").optGet "nft" =
      nft := rfl
  have hf : (JsVal.obj [("filters", JsVal.obj [("nft", nft)])]).get "filters" =
      Except.ok (JsVal.obj [("nft", nft)]) := rfl
  have hn : (JsVal.obj [("nft", nft)]).get "nft" = Except.ok nft := rfl
  have hget : nft.get "address" = Except.ok (nft.optGet "address") :=
    get_eq_optGet_of_truthy nft "address" hnft
  have hparams : offersGetParams o.account.getAddress
      (JsVal.obj [("filters", JsVal.obj [("nft", nft)])]) = Except.ok (JsVal.obj []) := by
    unfold offersGetParams
    rw [hg, hnft]
    simp only [if_true]
    rw [hf, exceptBindOk, hn, exceptBindOk, hget, exceptBindOk, haddr]
    simp [exceptPure]
  unfold Offers.get
  rw [hparams]

/-- Witness for C9 at an `nft` filter carrying only an `id`. -/
theorem get_nft_filter_falsy_address_empty_params_witness :
    (JsVal.obj [("id", JsVal.str "42")]).truthy = true ∧
    ((JsVal.obj [("id", JsVal.str "42")]).optGet "address").truthy = false ∧
    (Offers.get sampleOffers (JsVal.obj [("filters", JsVal.obj [("nft",
        JsVal.obj [("id", JsVal.str "42")])])])).1 =
      some ⟨"offers", JsVal.obj []⟩ :=
  ⟨rfl, rfl, get_nft_filter_falsy_address_empty_params sampleOffers
    (JsVal.obj [("id", JsVal.str "42")]) rfl rfl⟩

/-! ### Claims about `Offers.create` -/

/-- C1 (divergence witness): at an unsupported contract name the helper
and the API are indeed never invoked (both effect lists are empty), but
`create` does not return the `{errors: ...}` value: strict-mode
evaluation raises `ReferenceError` at the assignment `response =
{ errors }`, because `response` is never declared. -/
theorem create_unsupported_name_eval :
    Offers.create sampleOffers
        (JsVal.obj [("nftfi", JsVal.obj [("contract",
          JsVal.obj [("name", JsVal.str "v1.loan.fixed")])])]) =
      (⟨[], []⟩, Except.error (JsError.referenceError "response")) := rfl

/-- C2: whenever `Offers.create` reaches its contract-name switch
(the merge succeeds and `options.nftfi.contract.name` is readable), the
call raises `ReferenceError: response is not defined` — `response` is
assigned but never declared, and module/class bodies are strict mode —
and never returns normally, on every branch of the switch. -/
theorem create_reaches_switch_raises (o : Offers) (options name : JsVal)
    (h : createContractName options = Except.ok name) :
    (Offers.create o options).2 =
      Except.error (JsError.referenceError "response") := by
  unfold Offers.create
  cases hm : createMergedOptions options with
  | error e =>
    rw [createContractName, hm, exceptBindError] at h
    exact absurd h (by simp)
  | ok merged =>
    rw [createContractName, hm, exceptBindOk] at h
    cases hc : contractNameOf merged with
    | error e => rw [hc] at h; exact absurd h (by simp)
    | ok cn =>
      simp only [hc]
      by_cases hs : jsStrictEqStr cn "v2-1.loan.fixed"
      · simp only [hs, if_true]
        by_cases hd : jsIsFalse (createDryRun merged) <;> simp [hd]
      · simp [hs]

/-- Witness for C2 at a concrete readable contract name. -/
theorem create_reaches_switch_raises_witness :
    createContractName (JsVal.obj [("nftfi", JsVal.obj [("contract",
        JsVal.obj [("name", JsVal.str "v2.loan.fixed")])])]) =
      Except.ok (JsVal.str "v2.loan.fixed") ∧
    (Offers.create sampleOffers (JsVal.obj [("nftfi", JsVal.obj [("contract",
        JsVal.obj [("name", JsVal.str "v2.loan.fixed")])])])).2 =
      Except.error (JsError.referenceError "response") :=
  ⟨rfl, create_reaches_switch_raises sampleOffers _ _ rfl⟩

/-- C3 (divergence witness): with the supported contract name and no
dry-run flag, the helper is invoked on the merged options and its
payload is posted to the `offers` URI — but the API response is not
returned: the assignment `response = await this.#api.post(...)` raises
`ReferenceError` after the post completes. -/
theorem create_supported_live_eval :
    Offers.create sampleOffers
        (JsVal.obj [("nftfi", JsVal.obj [("contract",
          JsVal.obj [("name", JsVal.str "v2-1.loan.fixed")])])]) =
      (⟨[JsVal.obj [("nftfi", JsVal.obj [("contract",
          JsVal.obj [("name", JsVal.str "v2-1.loan.fixed")])])]],
        [("offers", JsVal.str "constructedPayload")]⟩,
       Except.error (JsError.referenceError "response")) := rfl

/-- C4 (divergence witness): with the supported contract name and a
truthy `simulation.dryRun`, the helper is invoked and the API's `post`
is indeed never invoked — but the payload is not returned: the
assignment `response = payload` raises `ReferenceError`. -/
theorem create_supported_dry_run_eval :
    Offers.create sampleOffers
        (JsVal.obj [("nftfi", JsVal.obj [("contract",
          JsVal.obj [("name", JsVal.str "v2-1.loan.fixed")])]),
          ("simulation", JsVal.obj [("dryRun", JsVal.bool true)])]) =
      (⟨[JsVal.obj [("nftfi", JsVal.obj [("contract",
          JsVal.obj [("name", JsVal.str "v2-1.loan.fixed")])]),
          ("simulation", JsVal.obj [("dryRun", JsVal.bool true)])]], []⟩,
       Except.error (JsError.referenceError "response")) := rfl

/-- C7: the merge `options = { ...options.listing, ...options }` on
line 112 gives precedence to fields at the root of `options` over
same-named fields nested under `options.listing` (`k₁`), and lifts
listing-only fields to the root (`k₂`). -/
theorem create_listing_merge_root_precedence (rootFs listingFs : List (String × JsVal))
    (k₁ k₂ : String) (v₁ : JsVal)
    (hl : lookupField rootFs "listing" = some (JsVal.obj listingFs))
    (h₁ : lookupField rootFs k₁ = some v₁)
    (h₂ : lookupField rootFs k₂ = none) :
    createMergedOptions (JsVal.obj rootFs) =
      Except.ok (JsVal.obj (spreadFields listingFs rootFs)) ∧
    lookupField (spreadFields listingFs rootFs) k₁ = some v₁ ∧
    lookupField (spreadFields listingFs rootFs) k₂ = lookupField listingFs k₂ := by
  refine ⟨?_, lookupField_spread_right listingFs rootFs k₁ v₁ h₁,
    lookupField_spread_left listingFs rootFs k₂ h₂⟩
  simp [createMergedOptions, JsVal.get, hl, spreadSource, exceptBindOk]

/-- Witness for C7: `options.listing = {a: 1, b: 3}` with root `a = 2`
merges to `a = 2` (root wins) and `b = 3` (listing lifted). -/
theorem create_listing_merge_root_precedence_witness :
    lookupField [("a", JsVal.num 2), ("listing", JsVal.obj [("a", JsVal.num 1),
        ("b", JsVal.num 3)])] "listing" =
      some (JsVal.obj [("a", JsVal.num 1), ("b", JsVal.num 3)]) ∧
    lookupField [("a", JsVal.num 2), ("listing", JsVal.obj [("a", JsVal.num 1),
        ("b", JsVal.num 3)])] "a" = some (JsVal.num 2) ∧
    lookupField [("a", JsVal.num 2), ("listing", JsVal.obj [("a", JsVal.num 1),
        ("b", JsVal.num 3)])] "b" = none ∧
    (createMergedOptions (JsVal.obj [("a", JsVal.num 2), ("listing",
        JsVal.obj [("a", JsVal.num 1), ("b", JsVal.num 3)])]) =
      Except.ok (JsVal.obj (spreadFields [("a", JsVal.num 1), ("b", JsVal.num 3)]
        [("a", JsVal.num 2), ("listing", JsVal.obj [("a", JsVal.num 1), ("b", JsVal.num 3)])])) ∧
    lookupField (spreadFields [("a", JsVal.num 1), ("b", JsVal.num 3)]
        [("a", JsVal.num 2), ("listing", JsVal.obj [("a", JsVal.num 1), ("b", JsVal.num 3)])]) "a" =
      some (JsVal.num 2) ∧
    lookupField (spreadFields [("a", JsVal.num 1), ("b", JsVal.num 3)]
        [("a", JsVal.num 2), ("listing", JsVal.obj [("a", JsVal.num 1), ("b", JsVal.num 3)])]) "b" =
      lookupField [("a", JsVal.num 1), ("b", JsVal.num 3)] "b") :=
  ⟨rfl, rfl, rfl, create_listing_merge_root_precedence
    [("a", JsVal.num 2), ("listing", JsVal.obj [("a", JsVal.num 1), ("b", JsVal.num 3)])]
    [("a", JsVal.num 1), ("b", JsVal.num 3)] "a" "b" (JsVal.num 2) rfl rfl rfl⟩
